import Mathlib

/-!
Verification of the NeuralSync wellness-tracking application.

The Python modules `data_processing.py`, `ml_models.py`, `helpers.py`,
`privacy.py`, `openai_integration.py` and `openai_helper.py` are shallowly
embedded below.  Numeric metric values are modelled as rationals (the Python
code does exact-looking arithmetic on user-entered numbers), Python `round`
is modelled by `pyRound` (round half to even, as CPython does), optional
dictionary fields become `Option` fields, and the outbound OpenAI call is
modelled as a function argument producing `Except` (success or a raised
exception carrying its message).
-/

namespace NeuralSync

/-- Python `round(x)`: nearest integer, ties to even (CPython banker's
rounding). -/
def pyRound (q : ℚ) : ℤ :=
  if q - ⌊q⌋ < 1/2 then ⌊q⌋
  else if 1/2 < q - ⌊q⌋ then ⌊q⌋ + 1
  else if Even ⌊q⌋ then ⌊q⌋ else ⌊q⌋ + 1

theorem pyRound_cases (q : ℚ) : pyRound q = ⌊q⌋ ∨ pyRound q = ⌊q⌋ + 1 := by
  unfold pyRound
  split_ifs <;> simp

theorem pyRound_nonneg {q : ℚ} (h : 0 ≤ q) : 0 ≤ pyRound q := by
  rcases pyRound_cases q with h1 | h1 <;> rw [h1]
  · exact Int.floor_nonneg.mpr h
  · have := Int.floor_nonneg.mpr h
    omega

theorem pyRound_le {q : ℚ} {n : ℤ} (h : q ≤ n) : pyRound q ≤ n := by
  have hfl : ⌊q⌋ ≤ n := by
    have := Int.floor_le_floor h
    simpa using this
  unfold pyRound
  split_ifs with h1 h2 h3
  · exact hfl
  · -- q - ⌊q⌋ > 1/2 so ⌊q⌋ < q, hence ⌊q⌋ < n strictly
    rcases eq_or_lt_of_le hfl with he | hlt
    · exfalso
      have : (⌊q⌋ : ℚ) < q := by linarith
      rw [he] at this
      have : (n : ℚ) ≤ n := le_refl _
      have hq : q ≤ (n : ℚ) := h
      have : ((n : ℤ) : ℚ) < (n : ℚ) := lt_of_lt_of_le ‹(↑n : ℚ) < q› hq
      exact lt_irrefl _ this
    · omega
  · exact hfl
  · -- tie case with odd floor: q - ⌊q⌋ = 1/2 > 0 so ⌊q⌋ < q
    rcases eq_or_lt_of_le hfl with he | hlt
    · exfalso
      have hq2 : q - ⌊q⌋ = 1/2 := le_antisymm (not_lt.mp h2) (not_lt.mp h1)
      have : (⌊q⌋ : ℚ) < q := by linarith
      rw [he] at this
      have : ((n : ℤ) : ℚ) < (n : ℚ) := lt_of_lt_of_le this h
      exact lt_irrefl _ this
    · omega

/-! ## `data_processing.calculate_wellness_score`

The wearable-metrics record.  Every key the function reads is an optional
numeric field; `data.get(k, 0)` becomes `(·.getD 0)`. -/

structure WearableMetrics where
  sleep_efficiency : Option ℚ := none
  sleep_hours : Option ℚ := none
  steps : Option ℚ := none
  activity_minutes : Option ℚ := none
  resting_heart_rate : Option ℚ := none
  heart_rate_variability : Option ℚ := none
  vo2_max : Option ℚ := none
  blood_oxygen : Option ℚ := none
  stress_score : Option ℚ := none
  body_battery : Option ℚ := none
  recovery_score : Option ℚ := none
deriving DecidableEq

/-- Sleep component: sleep-efficiency part weighted 0.7 plus a duration part
(optimal 8 hours) weighted 0.3; only produced when `sleep_efficiency > 0`. -/
def sleepComponent (d : WearableMetrics) : Option ℚ :=
  if 0 < d.sleep_efficiency.getD 0 then
    some (min 100 (d.sleep_efficiency.getD 0) * (7/10)
      + max 0 (100 - |d.sleep_hours.getD 0 - 8| / 8 * 100) * (3/10))
  else none

/-- Activity component: steps part (10000 steps = 100) weighted 0.6 plus
activity-minutes part (30 minutes = 100) weighted 0.4; produced when
`steps > 0`. -/
def activityComponent (d : WearableMetrics) : Option ℚ :=
  if 0 < d.steps.getD 0 then
    some (min 100 (d.steps.getD 0 / 10000 * 100) * (6/10)
      + min 100 (d.activity_minutes.getD 0 / 30 * 100) * (4/10))
  else none

/-- Resting-heart-rate sub-score. -/
def rhrScore (rhr : ℚ) : ℚ :=
  if rhr < 50 then 80
  else if rhr < 60 then 90
  else if rhr ≤ 70 then 100
  else if rhr ≤ 80 then 80
  else if rhr ≤ 90 then 60
  else 40

/-- Blood-oxygen sub-score. -/
def spo2Score (s : ℚ) : ℚ := if 95 ≤ s then 100 else if 90 ≤ s then 80 else 50

/-- The heart sub-scores contributed by the available heart metrics, in the
source order. -/
def heartSubscores (d : WearableMetrics) : List ℚ :=
  (if 0 < d.resting_heart_rate.getD 0
    then [rhrScore (d.resting_heart_rate.getD 0)] else [])
  ++ (if 0 < d.heart_rate_variability.getD 0
    then [min 100 (max 0 (d.heart_rate_variability.getD 0 / 100 * 100))] else [])
  ++ (if 0 < d.vo2_max.getD 0
    then [min 100 (max 0 (d.vo2_max.getD 0 / 60 * 100))] else [])
  ++ (if 0 < d.blood_oxygen.getD 0
    then [spo2Score (d.blood_oxygen.getD 0)] else [])

/-- Heart component: plain average of the available heart sub-scores. -/
def heartComponent (d : WearableMetrics) : Option ℚ :=
  if (heartSubscores d).length = 0 then none
  else some ((heartSubscores d).sum / (heartSubscores d).length)

/-- Stress component: inverted stress score, else body battery, else recovery
score. -/
def stressComponent (d : WearableMetrics) : Option ℚ :=
  if 0 < d.stress_score.getD 0 then some (100 - d.stress_score.getD 0)
  else if 0 < d.body_battery.getD 0 then some (d.body_battery.getD 0)
  else if 0 < d.recovery_score.getD 0 then some (d.recovery_score.getD 0)
  else none

inductive Component
  | sleep
  | activity
  | heart
  | stress
deriving DecidableEq

def component_weights : Component → ℚ
  | .sleep => 3/10
  | .activity => 2/10
  | .heart => 3/10
  | .stress => 2/10

def componentScoreOpt (c : Component) (d : WearableMetrics) : Option ℚ :=
  match c with
  | .sleep => sleepComponent d
  | .activity => activityComponent d
  | .heart => heartComponent d
  | .stress => stressComponent d

def componentOrder : List Component := [.sleep, .activity, .heart, .stress]

/-- The `score_components` list built by the source in its append order. -/
def score_components (d : WearableMetrics) : List (Component × ℚ) :=
  componentOrder.filterMap fun c => (componentScoreOpt c d).map fun s => (c, s)

/-- `calculate_wellness_score` from `data_processing.py`: weighted average of
the available component scores, rounded; `0` when no component is available
(the loop over `score_components` accumulates exactly the two sums below). -/
def calculate_wellness_score (d : WearableMetrics) : ℤ :=
  if score_components d = [] then 0
  else if 0 < ((score_components d).map fun p => component_weights p.1).sum then
    pyRound
      (((score_components d).map fun p => p.2 * component_weights p.1).sum
        / ((score_components d).map fun p => component_weights p.1).sum)
  else 0

/-- Spec-side reading of the claim: the components available in a record. -/
def availableComponents (d : WearableMetrics) : List Component :=
  componentOrder.filter fun c => (componentScoreOpt c d).isSome

/-- Spec-side reading of the claim: weighted average of the available
component scores with weights renormalized over the available components,
rounded to the nearest integer; `0` when no component is available. -/
def wellnessSpec (d : WearableMetrics) : ℤ :=
  if availableComponents d = [] then 0
  else
    pyRound
      (((availableComponents d).map
          fun c => component_weights c * (componentScoreOpt c d).getD 0).sum
        / ((availableComponents d).map component_weights).sum)

theorem weights_pos (c : Component) : 0 < component_weights c := by
  cases c <;> norm_num [component_weights]

theorem sleepComponent_bounds (d : WearableMetrics) {s : ℚ}
    (h : sleepComponent d = some s) : 0 ≤ s ∧ s ≤ 100 := by
  unfold sleepComponent at h
  split_ifs at h with hpos
  · obtain rfl := Option.some.inj h
    have h1 : (0 : ℚ) ≤ min 100 (d.sleep_efficiency.getD 0) :=
      le_min (by norm_num) hpos.le
    have h2 : (0 : ℚ) ≤ max 0 (100 - |d.sleep_hours.getD 0 - 8| / 8 * 100) :=
      le_max_left _ _
    have h3 : min 100 (d.sleep_efficiency.getD 0) ≤ 100 := min_le_left _ _
    have h4 : max 0 (100 - |d.sleep_hours.getD 0 - 8| / 8 * 100) ≤ 100 := by
      have ha : (0 : ℚ) ≤ |d.sleep_hours.getD 0 - 8| / 8 * 100 := by positivity
      exact max_le (by norm_num) (by linarith)
    constructor <;> nlinarith

theorem activityComponent_bounds (d : WearableMetrics)
    (ham : 0 ≤ d.activity_minutes.getD 0) {s : ℚ}
    (h : activityComponent d = some s) : 0 ≤ s ∧ s ≤ 100 := by
  unfold activityComponent at h
  split_ifs at h with hpos
  · obtain rfl := Option.some.inj h
    have h1 : (0 : ℚ) ≤ min 100 (d.steps.getD 0 / 10000 * 100) :=
      le_min (by norm_num) (by positivity)
    have h2 : (0 : ℚ) ≤ min 100 (d.activity_minutes.getD 0 / 30 * 100) :=
      le_min (by norm_num) (by positivity)
    have h3 : min 100 (d.steps.getD 0 / 10000 * 100) ≤ 100 := min_le_left _ _
    have h4 : min 100 (d.activity_minutes.getD 0 / 30 * 100) ≤ 100 := min_le_left _ _
    constructor <;> nlinarith

theorem heartSubscores_bounds (d : WearableMetrics) :
    ∀ x ∈ heartSubscores d, 0 ≤ x ∧ x ≤ 100 := by
  have hr : ∀ q : ℚ, 0 ≤ rhrScore q ∧ rhrScore q ≤ 100 := by
    intro q; unfold rhrScore; split_ifs <;> norm_num
  have hsp : ∀ q : ℚ, 0 ≤ spo2Score q ∧ spo2Score q ≤ 100 := by
    intro q; unfold spo2Score; split_ifs <;> norm_num
  have hclamp : ∀ q : ℚ, 0 ≤ min 100 (max 0 q) ∧ min 100 (max 0 q) ≤ 100 :=
    fun q => ⟨le_min (by norm_num) (le_max_left _ _), min_le_left _ _⟩
  intro x hx
  simp only [heartSubscores, List.mem_append] at hx
  rcases hx with ((hx | hx) | hx) | hx
  · revert hx; split_ifs <;> intro hx <;> simp at hx
    subst hx; exact hr _
  · revert hx; split_ifs <;> intro hx <;> simp at hx
    subst hx; exact hclamp _
  · revert hx; split_ifs <;> intro hx <;> simp at hx
    subst hx; exact hclamp _
  · revert hx; split_ifs <;> intro hx <;> simp at hx
    subst hx; exact hsp _

theorem heartComponent_bounds (d : WearableMetrics) {s : ℚ}
    (h : heartComponent d = some s) : 0 ≤ s ∧ s ≤ 100 := by
  unfold heartComponent at h
  split_ifs at h with hlen
  · obtain rfl := Option.some.inj h
    have hpos : (0 : ℚ) < (heartSubscores d).length := by
      exact_mod_cast Nat.pos_of_ne_zero hlen
    have hnn : 0 ≤ (heartSubscores d).sum :=
      List.sum_nonneg fun x hx => (heartSubscores_bounds d x hx).1
    have hub : (heartSubscores d).sum ≤ (heartSubscores d).length • (100 : ℚ) :=
      List.sum_le_card_nsmul _ _ fun x hx => (heartSubscores_bounds d x hx).2
    rw [nsmul_eq_mul] at hub
    constructor
    · exact div_nonneg hnn hpos.le
    · rw [div_le_iff hpos]; linarith

theorem stressComponent_bounds (d : WearableMetrics)
    (h2 : d.stress_score.getD 0 ≤ 100) (h3 : d.body_battery.getD 0 ≤ 100)
    (h4 : d.recovery_score.getD 0 ≤ 100) {s : ℚ}
    (h : stressComponent d = some s) : 0 ≤ s ∧ s ≤ 100 := by
  unfold stressComponent at h
  split_ifs at h with ha hb hc <;> obtain rfl := Option.some.inj h <;>
    constructor <;> linarith

theorem score_components_bounds (d : WearableMetrics)
    (h1 : 0 ≤ d.activity_minutes.getD 0) (h2 : d.stress_score.getD 0 ≤ 100)
    (h3 : d.body_battery.getD 0 ≤ 100) (h4 : d.recovery_score.getD 0 ≤ 100) :
    ∀ p ∈ score_components d, 0 ≤ p.2 ∧ p.2 ≤ 100 := by
  intro p hp
  simp only [score_components, List.mem_filterMap] at hp
  obtain ⟨c, _, hmap⟩ := hp
  cases hopt : componentScoreOpt c d with
  | none => rw [hopt] at hmap; simp at hmap
  | some s =>
    rw [hopt] at hmap
    simp only [Option.map_some'] at hmap
    obtain rfl := Option.some.inj hmap
    cases c with
    | sleep => exact sleepComponent_bounds d hopt
    | activity => exact activityComponent_bounds d h1 hopt
    | heart => exact heartComponent_bounds d hopt
    | stress => exact stressComponent_bounds d h2 h3 h4 hopt

theorem total_weight_pos (l : List (Component × ℚ)) (h : l ≠ []) :
    0 < (l.map fun p => component_weights p.1).sum := by
  cases l with
  | nil => exact absurd rfl h
  | cons a t =>
    simp only [List.map_cons, List.sum_cons]
    have h1 := weights_pos a.1
    have h2 : 0 ≤ (t.map fun p => component_weights p.1).sum :=
      List.sum_nonneg (by
        intro x hx
        simp only [List.mem_map] at hx
        obtain ⟨p, _, rfl⟩ := hx
        exact (weights_pos p.1).le)
    linarith

theorem weighted_sum_bounds (l : List (Component × ℚ))
    (h : ∀ p ∈ l, 0 ≤ p.2 ∧ p.2 ≤ 100) :
    0 ≤ (l.map fun p => p.2 * component_weights p.1).sum ∧
      (l.map fun p => p.2 * component_weights p.1).sum
        ≤ 100 * (l.map fun p => component_weights p.1).sum := by
  induction l with
  | nil => simp
  | cons a t ih =>
    have ha := h a (List.mem_cons_self a t)
    have ht := ih fun p hp => h p (List.mem_cons_of_mem a hp)
    have hw := weights_pos a.1
    simp only [List.map_cons, List.sum_cons]
    constructor
    · have : 0 ≤ a.2 * component_weights a.1 := mul_nonneg ha.1 hw.le
      linarith [ht.1]
    · have : a.2 * component_weights a.1 ≤ 100 * component_weights a.1 := by
        nlinarith [ha.2, hw]
      linarith [ht.2]

/-- The record used to refute the claimed unconditional clamp: an
out-of-range `stress_score` of 1000. -/
def overRangeMetrics : WearableMetrics := { stress_score := some 1000 }

/-- C1 (counterexample): on the input record with `stress_score = 1000` —
a value outside the natural 0–100 range, which the claim explicitly allows —
`calculate_wellness_score` returns `-900`, far below the claimed lower bound
of 0, so the returned value is not clamped to `[0, 100]`. -/
theorem claim1_counterexample :
    calculate_wellness_score overRangeMetrics = -900 ∧
      ¬ (0 ≤ calculate_wellness_score overRangeMetrics ∧
          calculate_wellness_score overRangeMetrics ≤ 100) := by
  have h1 : score_components overRangeMetrics = [(Component.stress, -900)] := by
    simp [score_components, componentOrder, componentScoreOpt, sleepComponent,
      activityComponent, heartComponent, heartSubscores, stressComponent,
      overRangeMetrics]
    norm_num
  have h2 : calculate_wellness_score overRangeMetrics
      = pyRound ((-900) * (2/10) / (2/10)) := by
    rw [calculate_wellness_score, h1]
    norm_num [component_weights]
  have h3 : ((-900 : ℚ)) * (2/10) / (2/10) = -900 := by norm_num
  have h4 : pyRound (-900 : ℚ) = -900 := by
    unfold pyRound
    norm_num
  have h : calculate_wellness_score overRangeMetrics = -900 := by
    rw [h2, h3, h4]
  refine ⟨h, ?_⟩
  rw [h]
  omega

/-- C1 (amended): the result of `calculate_wellness_score` lies in `[0, 100]`
provided the input metrics that feed the score unclamped are themselves in
range: a nonnegative `activity_minutes` and `stress_score`, `body_battery`,
`recovery_score` at most 100. -/
theorem claim1_wellness_clamped (d : WearableMetrics)
    (h1 : 0 ≤ d.activity_minutes.getD 0) (h2 : d.stress_score.getD 0 ≤ 100)
    (h3 : d.body_battery.getD 0 ≤ 100) (h4 : d.recovery_score.getD 0 ≤ 100) :
    0 ≤ calculate_wellness_score d ∧ calculate_wellness_score d ≤ 100 := by
  unfold calculate_wellness_score
  by_cases hc : score_components d = []
  · simp [hc]
  · rw [if_neg hc]
    have hb := score_components_bounds d h1 h2 h3 h4
    have hws := weighted_sum_bounds _ hb
    have htw := total_weight_pos _ hc
    rw [if_pos htw]
    constructor
    · exact pyRound_nonneg (div_nonneg hws.1 htw.le)
    · refine pyRound_le ?_
      rw [div_le_iff htw]
      push_cast
      linarith [hws.2]

theorem claim1_witness :
    0 ≤ calculate_wellness_score { stress_score := some 40 } ∧
      calculate_wellness_score { stress_score := some 40 } ≤ 100 :=
  claim1_wellness_clamped _ (by decide) (by decide) (by decide) (by decide)

theorem score_components_eq (d : WearableMetrics) :
    score_components d
      = (availableComponents d).map fun c => (c, (componentScoreOpt c d).getD 0) := by
  unfold score_components availableComponents componentOrder
  cases hs : componentScoreOpt .sleep d <;>
    cases ha : componentScoreOpt .activity d <;>
      cases hh : componentScoreOpt .heart d <;>
        cases hst : componentScoreOpt .stress d <;>
          simp [hs, ha, hh, hst]

/-- C2: `calculate_wellness_score` is exactly the renormalized weighted
average described by the spec: over the available components (weights
sleep 0.3, activity 0.2, heart 0.3, stress 0.2) it returns the weighted
average of the component scores divided by the total weight of the available
components, rounded to the nearest integer, and `0` when no component is
available.  Determinism is immediate: the embedding is a function of the
record alone. -/
theorem claim2_weighted_average (d : WearableMetrics) :
    calculate_wellness_score d = wellnessSpec d := by
  unfold calculate_wellness_score wellnessSpec
  rw [score_components_eq d]
  by_cases hav : availableComponents d = []
  · simp [hav]
  · have hne :
        ((availableComponents d).map
          fun c => (c, (componentScoreOpt c d).getD 0)) ≠ [] := by
      simpa using hav
    rw [if_neg hne, if_neg hav]
    have htw0 : 0 < ((availableComponents d).map component_weights).sum := by
      have := total_weight_pos
        ((availableComponents d).map fun c => (c, (componentScoreOpt c d).getD 0))
        hne
      simpa [List.map_map, Function.comp_def] using this
    have hmap1 :
        (((availableComponents d).map
            fun c => (c, (componentScoreOpt c d).getD 0)).map
          fun p => component_weights p.1).sum
          = ((availableComponents d).map component_weights).sum := by
      simp [List.map_map, Function.comp_def]
    have hmap2 :
        (((availableComponents d).map
            fun c => (c, (componentScoreOpt c d).getD 0)).map
          fun p => p.2 * component_weights p.1).sum
          = ((availableComponents d).map
              fun c => component_weights c * (componentScoreOpt c d).getD 0).sum := by
      simp [List.map_map, Function.comp_def, mul_comm]
    rw [hmap1, hmap2, if_pos htw0]

/-! ## `ml_models.py`

Journal entries and wearable samples as the two analysis functions read
them.  `entry.get(k)` becomes an `Option` field; `entry.get(k, default)`
becomes `(·.getD default)`.  The Pearson correlation computed through
`numpy.corrcoef` involves a real square root, which has no exact rational
value, so it is abstracted as a function argument `corr`; likewise the
Python decimal formatting `round(x, 1)` interpolated into one insight string
is abstracted as `fmt`.  Both analysis functions are parametric in these,
and every claim below holds for all instantiations. -/

structure SentimentScores where
  compound : Option ℚ := none
deriving DecidableEq

structure Activities where
  exercise : Bool := false
  meditation : Bool := false
  social_interaction : Bool := false
  outdoor_time : Bool := false
deriving DecidableEq

structure JournalEntry where
  date : Option String := none
  mood_score : Option ℚ := none
  stress_level : Option ℚ := none
  sleep_quality : Option ℚ := none
  sentiment : Option SentimentScores := none
  activities : Option Activities := none
deriving DecidableEq

structure WearableEntry where
  date : Option String := none
  sleep_hours : Option ℚ := none
  deep_sleep_percentage : Option ℚ := none
  avg_heart_rate : Option ℚ := none
  steps : Option ℚ := none
  activity_minutes : Option ℚ := none
deriving DecidableEq

/-- One matched journal/wearable day, as `analyze_mood_patterns` builds it. -/
structure MatchedDay where
  date : String
  mood_score : ℚ
  stress_level : ℚ
  sleep_quality : ℚ
  sentiment_compound : ℚ
  activities : Activities
  sleep_hours : ℚ
  deep_sleep_percentage : ℚ
  avg_heart_rate : ℚ
  steps : ℚ
  activity_minutes : ℚ
deriving DecidableEq

/-- The `matched_data` list: each journal entry with a truthy date paired
with the first wearable sample of the same date. -/
def matched_data (journal_entries : List JournalEntry)
    (wearable_data : List WearableEntry) : List MatchedDay :=
  journal_entries.filterMap fun e =>
    match e.date with
    | none => none
    | some dt =>
      if dt = "" then none
      else
        (wearable_data.find? fun w => w.date = some dt).map fun w =>
          { date := dt
            mood_score := e.mood_score.getD 0
            stress_level := e.stress_level.getD 0
            sleep_quality := e.sleep_quality.getD 0
            sentiment_compound := (e.sentiment.getD {}).compound.getD 0
            activities := e.activities.getD {}
            sleep_hours := w.sleep_hours.getD 0
            deep_sleep_percentage := w.deep_sleep_percentage.getD 0
            avg_heart_rate := w.avg_heart_rate.getD 0
            steps := w.steps.getD 0
            activity_minutes := w.activity_minutes.getD 0 }

def notEnoughDataMsg : String :=
  "Not enough data to generate reliable insights yet. Keep logging entries and syncing your wearable device."

def generalInsight1 : String :=
  "Continue tracking your mood and activities to receive more personalized insights."

def generalInsight2 : String :=
  "Consider maintaining consistent sleep and exercise routines, as these typically have positive effects on mental health."

/-- The pattern-specific insights produced once at least three matched days
exist, in the source's append order. -/
def patternInsights (corr : List ℚ → List ℚ → ℚ) (fmt : ℚ → String)
    (md : List MatchedDay) : List String :=
  (let sleep_mood_corr := corr (md.map (·.sleep_hours)) (md.map (·.mood_score))
   if 4/10 < |sleep_mood_corr| then
     if 0 < sleep_mood_corr then
       ["📊 Analysis shows that your mood tends to be better on days when you get more sleep."]
     else
       ["📊 Interestingly, there seems to be a negative correlation between sleep hours and mood in your data."]
   else [])
  ++ (let activity_mood_corr := corr (md.map (·.steps)) (md.map (·.mood_score))
   if 4/10 < |activity_mood_corr| then
     if 0 < activity_mood_corr then
       ["📊 You tend to report better moods on days with more physical activity."]
     else
       ["📊 Your data suggests physical activity might not be improving your mood as expected."]
   else [])
  ++ (let hr_stress_corr := corr (md.map (·.avg_heart_rate)) (md.map (·.stress_level))
   if 3/10 < |hr_stress_corr| then
     if 0 < hr_stress_corr then
       ["📊 Your average heart rate tends to be higher on days when you report more stress."]
     else
       ["📊 Despite reporting stress, your heart rate doesn't show typical elevation patterns."]
   else [])
  ++ (let exercise_days := md.filter fun d => d.activities.exercise
   let non_exercise_days := md.filter fun d => !d.activities.exercise
   if exercise_days ≠ [] ∧ non_exercise_days ≠ [] then
     let avg_mood_with_exercise :=
       (exercise_days.map (·.mood_score)).sum / exercise_days.length
     let avg_mood_without_exercise :=
       (non_exercise_days.map (·.mood_score)).sum / non_exercise_days.length
     if avg_mood_without_exercise + 1 < avg_mood_with_exercise then
       ["📊 On days when you exercise, your mood score is significantly higher (about "
         ++ fmt (avg_mood_with_exercise - avg_mood_without_exercise) ++ " points)."]
     else []
   else [])
  ++ (let meditation_days := md.filter fun d => d.activities.meditation
   let non_meditation_days := md.filter fun d => !d.activities.meditation
   if meditation_days ≠ [] ∧ non_meditation_days ≠ [] then
     let avg_stress_with_meditation :=
       (meditation_days.map (·.stress_level)).sum / meditation_days.length
     let avg_stress_without_meditation :=
       (non_meditation_days.map (·.stress_level)).sum / non_meditation_days.length
     if avg_stress_with_meditation + 1 < avg_stress_without_meditation then
       ["📊 Meditation appears to be effective for you - your stress levels are lower on days when you meditate."]
     else []
   else [])

/-- `analyze_mood_patterns` from `ml_models.py`. -/
def analyze_mood_patterns (corr : List ℚ → List ℚ → ℚ) (fmt : ℚ → String)
    (journal_entries : List JournalEntry) (wearable_data : List WearableEntry) :
    List String :=
  if journal_entries.length < 3 ∨ wearable_data.length < 3 then
    [notEnoughDataMsg]
  else
    let insights :=
      if 3 ≤ (matched_data journal_entries wearable_data).length then
        patternInsights corr fmt (matched_data journal_entries wearable_data)
      else []
    if insights.length < 2 then insights ++ [generalInsight1, generalInsight2]
    else insights

/-- Result record of `predict_stress_level`. -/
structure StressPrediction where
  predicted_stress_level : ℤ
  contributing_factors : List (String × String)
  recommendations : List String
deriving DecidableEq

/-- Factor 1 of `predict_stress_level`: recent sleep quality.  Returns the
stress delta, the contributing-factor entries and the recommendations it
emits. -/
def sleepFactor (latest_wearable : Option WearableEntry) :
    ℚ × List (String × String) × List String :=
  match latest_wearable with
  | none => (0, [], [])
  | some w =>
    match w.sleep_hours with
    | none => (0, [], [])
    | some sleep_hours =>
      if sleep_hours < 6 then
        (3/2, [("Low sleep (less than 6 hours)", "High impact")],
          ["Prioritize improving your sleep duration. Aim for 7-8 hours."])
      else if 8 < sleep_hours then
        (-1, [("Good sleep duration", "Positive factor")], [])
      else
        (-(1/2), [("Adequate sleep", "Slight positive")], [])

/-- Factor 2: heart rate. -/
def hrFactor (latest_wearable : Option WearableEntry) :
    ℚ × List (String × String) × List String :=
  match latest_wearable with
  | none => (0, [], [])
  | some w =>
    match w.avg_heart_rate with
    | none => (0, [], [])
    | some heart_rate =>
      if 80 < heart_rate then
        (1, [("Elevated heart rate", "Moderate impact")],
          ["Try deep breathing exercises to help lower your heart rate."])
      else if heart_rate < 65 then
        (-(1/2), [("Low resting heart rate", "Positive factor")], [])
      else (0, [], [])

/-- Factor 3: recent physical activity. -/
def stepsFactor (latest_wearable : Option WearableEntry) :
    ℚ × List (String × String) × List String :=
  match latest_wearable with
  | none => (0, [], [])
  | some w =>
    match w.steps with
    | none => (0, [], [])
    | some steps =>
      if steps < 3000 then
        (1/2, [("Low physical activity", "Slight negative")],
          ["Try to incorporate more walking into your day. Even short walks can help reduce stress."])
      else if 8000 < steps then
        (-1, [("Good physical activity", "Positive factor")], [])
      else (0, [], [])

/-- Factor 4: journal sentiment. -/
def sentimentFactor (latest_journal : Option JournalEntry) :
    ℚ × List (String × String) × List String :=
  match latest_journal with
  | none => (0, [], [])
  | some j =>
    match j.sentiment with
    | none => (0, [], [])
    | some s =>
      let sentiment := s.compound.getD 0
      if sentiment < -(3/10) then
        (3/2, [("Negative journal sentiment", "High impact")],
          ["Your journal entries show negative patterns. Consider mindfulness practices to help shift perspective."])
      else if 3/10 < sentiment then
        (-1, [("Positive outlook", "Positive factor")], [])
      else (0, [], [])

/-- Factor 5: recent activities. -/
def activitiesFactor (latest_journal : Option JournalEntry) :
    ℚ × List (String × String) × List String :=
  match latest_journal with
  | none => (0, [], [])
  | some j =>
    match j.activities with
    | none => (0, [], [])
    | some activities =>
      ((if activities.exercise then -(1/2) else 0)
         + (if activities.meditation then -1 else 0)
         + (if activities.outdoor_time then -(1/2) else 0)
         + (if !activities.social_interaction then 1/2 else 0),
       (if activities.exercise then [("Recent exercise", "Positive factor")] else [])
         ++ (if activities.meditation then [("Meditation practice", "Significant positive")] else [])
         ++ (if activities.outdoor_time then [("Time outdoors", "Positive factor")] else [])
         ++ (if !activities.social_interaction then [("Limited social interaction", "Slight negative")] else []),
       if !activities.social_interaction then
         ["Consider connecting with friends or family, even briefly."]
       else [])

/-- The accumulated `base_stress` value (starts at the default mid-level 5). -/
def base_stress (latest_journal : Option JournalEntry)
    (latest_wearable : Option WearableEntry) : ℚ :=
  5 + (sleepFactor latest_wearable).1 + (hrFactor latest_wearable).1
    + (stepsFactor latest_wearable).1 + (sentimentFactor latest_journal).1
    + (activitiesFactor latest_journal).1

def generalRec1 : String := "Practice regular deep breathing throughout the day."

def generalRec2 : String :=
  "Take short breaks from screens and work to reset your mind."

/-- `predict_stress_level` from `ml_models.py`. -/
def predict_stress_level (latest_journal : Option JournalEntry)
    (latest_wearable : Option WearableEntry) : StressPrediction :=
  let recommendations :=
    (sleepFactor latest_wearable).2.2 ++ (hrFactor latest_wearable).2.2
      ++ (stepsFactor latest_wearable).2.2 ++ (sentimentFactor latest_journal).2.2
      ++ (activitiesFactor latest_journal).2.2
  { predicted_stress_level :=
      max 1 (min 10 (pyRound (base_stress latest_journal latest_wearable)))
    contributing_factors :=
      (sleepFactor latest_wearable).2.1 ++ (hrFactor latest_wearable).2.1
        ++ (stepsFactor latest_wearable).2.1 ++ (sentimentFactor latest_journal).2.1
        ++ (activitiesFactor latest_journal).2.1
    recommendations :=
      if recommendations.length < 2 then
        recommendations ++ [generalRec1, generalRec2]
      else recommendations }

/-- C3: the `predicted_stress_level` field returned by `predict_stress_level`
is an integer clamped to `[1, 10]`, for every pair of inputs and however many
stress factors apply. -/
theorem claim3_stress_clamped (latest_journal : Option JournalEntry)
    (latest_wearable : Option WearableEntry) :
    1 ≤ (predict_stress_level latest_journal latest_wearable).predicted_stress_level
      ∧ (predict_stress_level latest_journal latest_wearable).predicted_stress_level
          ≤ 10 := by
  unfold predict_stress_level
  dsimp only
  constructor
  · exact le_max_left _ _
  · exact max_le (by norm_num) (le_trans (min_le_left _ _) (by norm_num))

/-- C10: `analyze_mood_patterns` always returns a non-empty insight list:
with fewer than 3 journal entries or wearable samples it returns exactly the
single not-enough-data message, and otherwise at least two insights (two
general insights are appended whenever fewer than two pattern-specific
insights were produced).  The statement is universal in the abstracted
correlation and number-formatting functions. -/
theorem claim10_insights_nonempty (corr : List ℚ → List ℚ → ℚ)
    (fmt : ℚ → String) (journal_entries : List JournalEntry)
    (wearable_data : List WearableEntry) :
    analyze_mood_patterns corr fmt journal_entries wearable_data ≠ []
      ∧ ((journal_entries.length < 3 ∨ wearable_data.length < 3) →
          analyze_mood_patterns corr fmt journal_entries wearable_data
            = [notEnoughDataMsg])
      ∧ (¬ (journal_entries.length < 3 ∨ wearable_data.length < 3) →
          2 ≤ (analyze_mood_patterns corr fmt journal_entries wearable_data).length) := by
  unfold analyze_mood_patterns
  by_cases hfew : journal_entries.length < 3 ∨ wearable_data.length < 3
  · rw [if_pos hfew]
    exact ⟨by simp, fun _ => rfl, fun h => absurd hfew h⟩
  · rw [if_neg hfew]
    set insights :=
      if 3 ≤ (matched_data journal_entries wearable_data).length then
        patternInsights corr fmt (matched_data journal_entries wearable_data)
      else [] with hins
    by_cases hlen : insights.length < 2
    · rw [if_pos hlen]
      refine ⟨?_, fun h => absurd h hfew, fun _ => ?_⟩
      · simp
      · simp
    · rw [if_neg hlen]
      push_neg at hlen
      refine ⟨?_, fun h => absurd h hfew, fun _ => hlen⟩
      intro hnil
      rw [hnil] at hlen
      simp at hlen

/-- C5: `calculate_wellness_score`, `predict_stress_level` and
`analyze_mood_patterns` are pure: two runs on equal inputs return equal
outputs.  (The source bodies contain no assignment to any input record and
no global-state access, which is what allows them to be embedded as plain
functions of their arguments at all; `analyze_mood_patterns` is additionally
parametric in the deterministic numpy correlation and in decimal formatting,
and equal instantiations give equal outputs.) -/
theorem claim5_pure_functions (d₁ d₂ : WearableMetrics)
    (j₁ j₂ : Option JournalEntry) (w₁ w₂ : Option WearableEntry)
    (corr₁ corr₂ : List ℚ → List ℚ → ℚ) (fmt₁ fmt₂ : ℚ → String)
    (js₁ js₂ : List JournalEntry) (ws₁ ws₂ : List WearableEntry)
    (hd : d₁ = d₂) (hj : j₁ = j₂) (hw : w₁ = w₂) (hcorr : corr₁ = corr₂)
    (hfmt : fmt₁ = fmt₂) (hjs : js₁ = js₂) (hws : ws₁ = ws₂) :
    calculate_wellness_score d₁ = calculate_wellness_score d₂
      ∧ predict_stress_level j₁ w₁ = predict_stress_level j₂ w₂
      ∧ analyze_mood_patterns corr₁ fmt₁ js₁ ws₁
          = analyze_mood_patterns corr₂ fmt₂ js₂ ws₂ := by
  subst hd; subst hj; subst hw; subst hcorr; subst hfmt; subst hjs; subst hws
  exact ⟨rfl, rfl, rfl⟩

theorem claim5_witness :
    calculate_wellness_score { stress_score := some 40 }
        = calculate_wellness_score { stress_score := some 40 }
      ∧ predict_stress_level none none = predict_stress_level none none
      ∧ analyze_mood_patterns (fun _ _ => 0) (fun _ => "") [] []
          = analyze_mood_patterns (fun _ _ => 0) (fun _ => "") [] [] :=
  claim5_pure_functions _ _ _ _ _ _ _ _ _ _ _ _ _ _ rfl rfl rfl rfl rfl rfl rfl

theorem claim10_witness :
    analyze_mood_patterns (fun _ _ => 0) (fun _ => "") [] [] = [notEnoughDataMsg]
      ∧ 2 ≤ (analyze_mood_patterns (fun _ _ => 0) (fun _ => "")
          [{}, {}, {}] [{}, {}, {}]).length := by
  constructor
  · exact (claim10_insights_nonempty (fun _ _ => 0) (fun _ => "") [] []).2.1
      (by norm_num)
  · exact (claim10_insights_nonempty (fun _ _ => 0) (fun _ => "")
      [{}, {}, {}] [{}, {}, {}]).2.2 (by norm_num)

/-! ## Python dictionaries

`privacy.py` and `helpers.py` operate on loosely-typed dictionaries.  A
dictionary is modelled as an insertion-ordered association list with the
CPython operations: lookup finds the (unique, in any list a Python dict can
produce) binding, assignment updates an existing binding in place or appends
a new one at the end, and `del` removes the binding.  Values are the flat
Python values these modules store. -/

inductive PyVal
  | str (s : String)
  | num (q : ℚ)
  | bool (b : Bool)
  | none
deriving DecidableEq

abbrev PyDict := List (String × PyVal)

section DictOps

variable {β : Type}

/-- `d[k]` / `d.get(k)`: the first binding of `k`. -/
def dget : List (String × β) → String → Option β
  | [], _ => Option.none
  | p :: t, k => if p.1 = k then some p.2 else dget t k

/-- `d[k] = v`: update in place, else append at the end. -/
def dset : List (String × β) → String → β → List (String × β)
  | [], k, v => [(k, v)]
  | p :: t, k, v => if p.1 = k then (k, v) :: t else p :: dset t k v

/-- `del d[k]` (all uses in the source are guarded by `k in d`). -/
def derase : List (String × β) → String → List (String × β)
  | [], _ => []
  | p :: t, k => if p.1 = k then t else p :: derase t k

/-- `if k in d: d[k] = v`, the guarded update `privacy.anonymize_data` uses. -/
def dupdate (l : List (String × β)) (k : String) (v : β) : List (String × β) :=
  if (dget l k).isSome then dset l k v else l

theorem dget_dset_self (l : List (String × β)) (k : String) (v : β) :
    dget (dset l k v) k = some v := by
  induction l with
  | nil => simp [dget, dset]
  | cons p t ih =>
    by_cases h : p.1 = k
    · simp [dget, dset, h]
    · simp [dget, dset, h, ih]

theorem dget_dset_ne (l : List (String × β)) {k k' : String} (v : β)
    (h : k' ≠ k) : dget (dset l k v) k' = dget l k' := by
  induction l with
  | nil => simp [dget, dset, Ne.symm h]
  | cons p t ih =>
    by_cases hp : p.1 = k
    · simp [dget, dset, hp, Ne.symm h]
    · simp [dget, dset, hp, ih]

theorem dget_derase_ne (l : List (String × β)) {k k' : String}
    (h : k' ≠ k) : dget (derase l k) k' = dget l k' := by
  induction l with
  | nil => simp [derase]
  | cons p t ih =>
    by_cases hp : p.1 = k
    · simp [dget, derase, hp, Ne.symm h]
    · simp [dget, derase, hp, ih]

theorem dget_dupdate_ne (l : List (String × β)) {k k' : String} (v : β)
    (h : k' ≠ k) : dget (dupdate l k v) k' = dget l k' := by
  unfold dupdate
  split_ifs
  · exact dget_dset_ne l v h
  · rfl

theorem dget_dupdate_isSome (l : List (String × β)) (k k' : String) (v : β) :
    (dget (dupdate l k v) k').isSome = (dget l k').isSome := by
  by_cases h : k' = k
  · subst h
    unfold dupdate
    split_ifs with hs
    · rw [dget_dset_self]; simp [hs]
    · rfl
  · rw [dget_dupdate_ne l v h]

theorem dset_absent_append (l : List (String × β)) {k : String} (v : β)
    (h : dget l k = Option.none) : dset l k v = l ++ [(k, v)] := by
  induction l with
  | nil => simp [dset]
  | cons p t ih =>
    by_cases hp : p.1 = k
    · simp [dget, hp] at h
    · rw [dget, if_neg hp] at h
      simp [dset, hp, ih h]

theorem derase_append_absent (l : List (String × β)) {k : String} (v : β)
    (h : dget l k = Option.none) : derase (l ++ [(k, v)]) k = l := by
  induction l with
  | nil => simp [derase]
  | cons p t ih =>
    by_cases hp : p.1 = k
    · simp [dget, hp] at h
    · rw [dget, if_neg hp] at h
      simp [derase, hp, ih h]

theorem dget_append (l₁ l₂ : List (String × β)) (k : String) :
    dget (l₁ ++ l₂) k
      = match dget l₁ k with
        | some v => some v
        | Option.none => dget l₂ k := by
  induction l₁ with
  | nil => simp [dget]
  | cons p t ih =>
    by_cases hp : p.1 = k
    · simp [dget, hp]
    · simp [dget, hp, ih]

theorem dget_isSome_mem (l : List (String × β)) (k : String)
    (h : (dget l k).isSome) : ∃ v, (k, v) ∈ l := by
  induction l with
  | nil => simp [dget] at h
  | cons p t ih =>
    by_cases hp : p.1 = k
    · exact ⟨p.2, by simp [← hp]⟩
    · rw [dget, if_neg hp] at h
      obtain ⟨v, hv⟩ := ih h
      exact ⟨v, List.mem_cons_of_mem _ hv⟩

end DictOps

/-! ## `privacy.py` -/

/-- `encrypt_data`: the demo stub sets the `_would_be_encrypted` flag on its
argument and returns it. -/
def encrypt_data (data_dict : PyDict) : PyDict :=
  dset data_dict "_would_be_encrypted" (.bool true)

/-- `decrypt_data`: copies, removes the flag if present, returns the copy. -/
def decrypt_data (encrypted_data : PyDict) : PyDict :=
  if (dget encrypted_data "_would_be_encrypted").isSome then
    derase encrypted_data "_would_be_encrypted"
  else encrypted_data

/-- C8: for every dictionary without the `_would_be_encrypted` key,
`decrypt_data` undoes `encrypt_data` exactly; `encrypt_data` returns its
argument with the single added flag `_would_be_encrypted = True` (appended at
the end, every other binding unchanged). -/
theorem claim8_encrypt_decrypt_roundtrip (d : PyDict)
    (h : dget d "_would_be_encrypted" = Option.none) :
    decrypt_data (encrypt_data d) = d
      ∧ dget (encrypt_data d) "_would_be_encrypted" = some (.bool true)
      ∧ ∀ k, k ≠ "_would_be_encrypted" → dget (encrypt_data d) k = dget d k := by
  have happ := dset_absent_append d (PyVal.bool true) h
  refine ⟨?_, ?_, ?_⟩
  · unfold decrypt_data encrypt_data
    rw [dget_dset_self, if_pos (by simp)]
    unfold encrypt_data at happ
    rw [happ]
    exact derase_append_absent d _ h
  · unfold encrypt_data
    exact dget_dset_self d _ _
  · intro k hk
    unfold encrypt_data
    exact dget_dset_ne d _ hk

theorem claim8_witness :
    decrypt_data (encrypt_data [("mood_score", .num 7)])
        = [("mood_score", .num 7)]
      ∧ dget (encrypt_data [("mood_score", .num 7)]) "_would_be_encrypted"
          = some (.bool true)
      ∧ dget (encrypt_data [("mood_score", .num 7)]) "mood_score"
          = some (.num 7) := by
  have h := claim8_encrypt_decrypt_roundtrip [("mood_score", .num 7)]
    (by simp [dget])
  exact ⟨h.1, h.2.1, by rw [h.2.2 "mood_score" (by simp)]; simp [dget]⟩

/-- The safe-keys whitelist of `anonymize_data`. -/
def safe_keys : List String :=
  ["mood_score", "stress_level", "sleep_quality",
   "sleep_hours", "avg_heart_rate", "steps",
   "deep_sleep_percentage", "rem_sleep_percentage"]

/-- Python `str()` of the flat values these modules store (numeric rendering
abstracted by `toString` on the exact rational). -/
def pyStr : PyVal → String
  | .str s => s
  | .num q => toString q
  | .bool b => if b then "True" else "False"
  | .none => "None"

/-- The working copy `anonymized` of `anonymize_data`: direct identifiers
deleted (each delete is guarded by `in`, so absent keys are left alone, which
`derase` also does), free text redacted in place when present. -/
def anonymizedCopy (data_dict : PyDict) : PyDict :=
  dupdate
    (dupdate (derase (derase (derase data_dict "user_id") "name") "email")
      "content" (.str "[REDACTED PERSONAL TEXT]"))
    "title" (.str "[REDACTED TITLE]")

/-- The `safe_data` comprehension: the whitelisted bindings of the working
copy, in `safe_keys` order. -/
def safeData (data_dict : PyDict) : PyDict :=
  safe_keys.filterMap fun k => (dget (anonymizedCopy data_dict) k).map fun v => (k, v)

/-- `anonymize_data` from `privacy.py`.  `hash` abstracts the SHA-256 hex
digest and `rand` the `os.urandom(8).hex()` nonce (the claims are
independent of both).  The function copies its argument, deletes direct
identifiers, redacts free text in the copy, keeps only whitelisted keys, and
appends a hashed `anonymized_id` when a date is present. -/
def anonymize_data (hash : String → String) (rand : String)
    (data_dict : PyDict) : PyDict :=
  match dget (anonymizedCopy data_dict) "date" with
  | some dv =>
    safeData data_dict
      ++ [("anonymized_id", .str ((hash (pyStr dv ++ rand)).take 12))]
  | Option.none => safeData data_dict

theorem mem_safeData_key (d : PyDict) : ∀ p ∈ safeData d, p.1 ∈ safe_keys := by
  intro p hp
  simp only [safeData, List.mem_filterMap] at hp
  obtain ⟨k, hk, hmap⟩ := hp
  cases ho : dget (anonymizedCopy d) k with
  | none => rw [ho] at hmap; simp at hmap
  | some v =>
    rw [ho] at hmap
    simp only [Option.map_some'] at hmap
    obtain rfl := Option.some.inj hmap
    exact hk

theorem dget_safeData_of_not_mem (d : PyDict) (k : String)
    (h : k ∉ safe_keys) : dget (safeData d) k = Option.none := by
  cases ho : dget (safeData d) k with
  | none => rfl
  | some v =>
    obtain ⟨w, hw⟩ := dget_isSome_mem (safeData d) k (by rw [ho]; rfl)
    exact absurd (mem_safeData_key d _ hw) h

theorem anonymizedCopy_date (d : PyDict) :
    dget (anonymizedCopy d) "date" = dget d "date" := by
  unfold anonymizedCopy
  rw [dget_dupdate_ne _ _ (by decide), dget_dupdate_ne _ _ (by decide),
    dget_derase_ne _ (by decide), dget_derase_ne _ (by decide),
    dget_derase_ne _ (by decide)]

/-- C9: for every input dictionary, `anonymize_data` outputs only bindings
whose keys come from the fixed safe list, plus `anonymized_id` exactly when
the input has a `date` key; in particular `content`, `title`, `user_id`,
`name` and `email` never survive.  (The source operates on `.copy()` of its
argument, so the input is not modified; the embedding is accordingly a pure
function of the input.) -/
theorem claim9_anonymize_whitelist (hash : String → String) (rand : String)
    (d : PyDict) :
    (∀ k, (dget (anonymize_data hash rand d) k).isSome →
        k ∈ safe_keys ∨ k = "anonymized_id")
      ∧ ((dget (anonymize_data hash rand d) "anonymized_id").isSome ↔
          (dget d "date").isSome)
      ∧ dget (anonymize_data hash rand d) "content" = Option.none
      ∧ dget (anonymize_data hash rand d) "title" = Option.none
      ∧ dget (anonymize_data hash rand d) "user_id" = Option.none
      ∧ dget (anonymize_data hash rand d) "name" = Option.none
      ∧ dget (anonymize_data hash rand d) "email" = Option.none := by
  have hdate := anonymizedCopy_date d
  have hsubset : ∀ k, (dget (anonymize_data hash rand d) k).isSome →
      k ∈ safe_keys ∨ k = "anonymized_id" := by
    intro k hk
    unfold anonymize_data at hk
    cases hd : dget (anonymizedCopy d) "date" with
    | none =>
      rw [hd] at hk
      obtain ⟨v, hv⟩ := dget_isSome_mem _ _ hk
      exact Or.inl (mem_safeData_key d _ hv)
    | some dv =>
      rw [hd] at hk
      rw [dget_append] at hk
      cases hs : dget (safeData d) k with
      | none =>
        rw [hs] at hk
        simp only [dget] at hk
        split_ifs at hk with hkk
        · exact Or.inr hkk.symm
        · simp at hk
      | some v =>
        obtain ⟨w, hw⟩ := dget_isSome_mem (safeData d) k (by rw [hs]; rfl)
        exact Or.inl (mem_safeData_key d _ hw)
  have hsafe_aid : dget (safeData d) "anonymized_id" = Option.none :=
    dget_safeData_of_not_mem d _ (by decide)
  have haid : (dget (anonymize_data hash rand d) "anonymized_id").isSome ↔
      (dget d "date").isSome := by
    unfold anonymize_data
    rw [hdate]
    cases hd : dget d "date" with
    | none => simp [hsafe_aid]
    | some dv =>
      rw [dget_append, hsafe_aid]
      simp [dget]
  have hnone : ∀ k, k ∉ safe_keys → k ≠ "anonymized_id" →
      dget (anonymize_data hash rand d) k = Option.none := by
    intro k h1 h2
    cases ho : dget (anonymize_data hash rand d) k with
    | none => rfl
    | some v =>
      rcases hsubset k (by rw [ho]; rfl) with hin | heq
      · exact absurd hin h1
      · exact absurd heq h2
  exact ⟨hsubset, haid,
    hnone _ (by decide) (by decide), hnone _ (by decide) (by decide),
    hnone _ (by decide) (by decide), hnone _ (by decide) (by decide),
    hnone _ (by decide) (by decide)⟩

theorem claim9_witness :
    dget (anonymize_data (fun _ => "abcdefghijklmnop") "r0"
        [("date", .str "2024-01-01"), ("content", .str "secret"),
         ("user_id", .str "u1"), ("mood_score", .num 7)]) "content"
        = Option.none
      ∧ (dget (anonymize_data (fun _ => "abcdefghijklmnop") "r0"
          [("date", .str "2024-01-01"), ("content", .str "secret"),
           ("user_id", .str "u1"), ("mood_score", .num 7)]) "anonymized_id").isSome := by
  refine ⟨(claim9_anonymize_whitelist _ _ _).2.2.1, ?_⟩
  exact (claim9_anonymize_whitelist (fun _ => "abcdefghijklmnop") "r0"
    [("date", .str "2024-01-01"), ("content", .str "secret"),
     ("user_id", .str "u1"), ("mood_score", .num 7)]).2.1.mpr (by simp [dget])

/-! ## `helpers.py` user-data storage

`st.session_state.user_data_store` is the in-process dictionary keyed by
user id; its lazy initialisation to `{}` is the empty store.  The ambient
date `datetime.datetime.now()` used by `create_sample_data` is passed in as
`today`. -/

structure CopingStrategy where
  date : String
  focus_areas : List String
  strategy : String
deriving DecidableEq

structure UserData where
  journal_entries : List PyDict := []
  wearable_data : List PyDict := []
  coping_strategies : List CopingStrategy := []
deriving DecidableEq

/-- The welcome strategy `create_sample_data` seeds for a new user. -/
def welcome_strategy (today : String) : CopingStrategy :=
  { date := today
    focus_areas := ["Getting Started"]
    strategy := "\n        # Welcome to NeuroSync!\n        \n        ## Start Your Mental Health Journey\n        \n        **Steps:**\n        1. Begin by adding a journal entry to track your mood\n        2. Connect a wearable device to import health data\n        3. Explore the dashboard to see your mental health patterns\n        4. Generate personalized coping strategies based on your data\n        \n        **Benefits:** Building self-awareness is the first step toward better mental health.\n        \n        **Remember:** Consistency is key. Regular check-ins will help you notice patterns and make positive changes.\n        " }

/-- `create_sample_data`: minimal sample data for a new user (the `user_id`
argument is not used by the body). -/
def create_sample_data (today : String) (user_id : String) : UserData :=
  { journal_entries := []
    wearable_data := []
    coping_strategies := [welcome_strategy today] }

abbrev UserStore := List (String × UserData)

/-- `load_user_data`: returns the stored data for the user, creating and
storing sample data when none exists.  Returns the updated store alongside. -/
def load_user_data (today : String) (user_id : String) (store : UserStore) :
    UserStore × UserData :=
  match dget store user_id with
  | some d => (store, d)
  | Option.none =>
    (dset store user_id (create_sample_data today user_id),
     create_sample_data today user_id)

/-- `save_user_data`: stores the data under the user id and returns `True`. -/
def save_user_data (user_id : String) (data : UserData) (store : UserStore) :
    UserStore × Bool :=
  (dset store user_id data, true)

/-- C6: user-data persistence is a per-user-id dictionary in process memory:
saving under a user id and then loading that id returns exactly the saved
data, `save_user_data` returns `True`, and a save under one id leaves the
data stored under every other id unchanged. -/
theorem claim6_save_load_roundtrip (today user_id : String) (data : UserData)
    (store : UserStore) :
    (save_user_data user_id data store).2 = true
      ∧ (load_user_data today user_id (save_user_data user_id data store).1).2
          = data
      ∧ ∀ other_id, other_id ≠ user_id →
          dget (save_user_data user_id data store).1 other_id
            = dget store other_id := by
  refine ⟨rfl, ?_, ?_⟩
  · unfold load_user_data save_user_data
    rw [dget_dset_self]
  · intro other_id h
    unfold save_user_data
    exact dget_dset_ne store data h

theorem claim6_witness :
    (save_user_data "alice" { journal_entries := [[("mood_score", .num 9)]] } []).2
        = true
      ∧ (load_user_data "2024-01-01" "alice"
          (save_user_data "alice" { journal_entries := [[("mood_score", .num 9)]] }
            []).1).2
          = { journal_entries := [[("mood_score", .num 9)]] }
      ∧ dget (save_user_data "alice"
            { journal_entries := [[("mood_score", .num 9)]] } []).1 "bob"
          = dget ([] : UserStore) "bob" := by
  have h := claim6_save_load_roundtrip "2024-01-01" "alice"
    { journal_entries := [[("mood_score", .num 9)]] } []
  exact ⟨h.1, h.2.1, h.2.2 "bob" (by decide)⟩

/-! ## `openai_integration.py` and `openai_helper.py`

The outbound chat-completion call is modelled as a function argument
`call : ChatRequest → Except String α`: `Except.ok` is a successful,
already-parsed response body and `Except.error e` is any raised exception,
carrying the message `str(e)`.  Each source function builds exactly one
request, so the functions below are the request builders paired with the
try/except result handling. -/

structure ChatMessage where
  role : String
  content : String
deriving DecidableEq

structure ChatRequest where
  model : String
  messages : List ChatMessage
  response_format : Option String := Option.none
  max_tokens : Option ℕ := Option.none
deriving DecidableEq

/-- Parsed JSON result (or fallback) of `analyze_journal_sentiment`. -/
structure SentimentAnalysis where
  sentiment_score : ℚ
  primary_emotion : String
  emotional_tone : String
  key_concerns : List String
  strengths : List String
  error : Option String := Option.none
deriving DecidableEq

/-- Parsed JSON result (or fallback) of `analyze_sleep_patterns`. -/
structure SleepAnalysis where
  overall_assessment : String
  sleep_mood_correlation : String
  key_issues : List String
  recommendations : List String
  positive_habits : List String
  error : Option String := Option.none
deriving DecidableEq

def sentimentSystemPrompt : String :=
  "You are a mental health sentiment analysis expert. Analyze the sentiment of the journal entry and provide an emotional assessment. Respond with JSON in this format: \x7b'sentiment_score': number from 1-10, 'primary_emotion': string, 'emotional_tone': string, 'key_concerns': [strings], 'strengths': [strings]\x7d"

/-- The single chat-completion request `analyze_journal_sentiment` builds. -/
def analyze_journal_sentiment_request (journal_text : String) : ChatRequest :=
  { model := "gpt-4o"
    messages :=
      [{ role := "system", content := sentimentSystemPrompt },
       { role := "user", content := journal_text }]
    response_format := some "json_object" }

/-- The fixed part of the sentiment fallback record (its `error` field is
filled with the exception message at the failure site). -/
def sentimentFallback : SentimentAnalysis :=
  { sentiment_score := 5
    primary_emotion := "neutral"
    emotional_tone := "moderate"
    key_concerns := ["Unable to analyze due to API error"]
    strengths := ["Journaling practice"] }

/-- `analyze_journal_sentiment` from `openai_integration.py`. -/
def analyze_journal_sentiment
    (call : ChatRequest → Except String SentimentAnalysis)
    (journal_text : String) : SentimentAnalysis :=
  match call (analyze_journal_sentiment_request journal_text) with
  | .ok r => r
  | .error e => { sentimentFallback with error := some e }

/-- String truthiness/`str()` helpers used by the prompt templates. -/
def pyTruthy : PyVal → Bool
  | .str s => s ≠ ""
  | .num q => q ≠ 0
  | .bool b => b
  | .none => false

def getStrOr (d : PyDict) (k : String) (default : String) : String :=
  match dget d k with
  | some v => pyStr v
  | Option.none => default

def yesNo (d : PyDict) (k : String) : String :=
  if pyTruthy ((dget d k).getD (.bool false)) then "Yes" else "No"

/-- `create_strategy_prompt` from `openai_integration.py`. -/
def create_strategy_prompt (journal_data wearable_data : PyDict)
    (focus_areas : List String) (time_available : ℤ) (environment : String) :
    String :=
  "I need personalized mental health coping strategies based on the following information:\n\nJOURNAL DATA:\n- Most recent mood: "
    ++ getStrOr journal_data "mood_score" "N/A" ++ "/10\n- Stress level: "
    ++ getStrOr journal_data "stress_level" "N/A" ++ "/10\n- Sleep quality: "
    ++ getStrOr journal_data "sleep_quality" "N/A" ++ "/10\n- Exercise today: "
    ++ yesNo journal_data "exercise" ++ "\n- Meditation today: "
    ++ yesNo journal_data "meditation" ++ "\n- Social interaction: "
    ++ yesNo journal_data "social_interaction" ++ "\n- Time outdoors: "
    ++ yesNo journal_data "outdoor_time" ++ "\n- Journal entry: \""
    ++ getStrOr journal_data "content" "No content available"
    ++ "\"\n\nWEARABLE DATA:\n- Average heart rate: "
    ++ getStrOr wearable_data "avg_heart_rate" "N/A" ++ " bpm\n- Sleep duration: "
    ++ getStrOr wearable_data "sleep_hours" "N/A" ++ " hours\n- Steps today: "
    ++ getStrOr wearable_data "steps" "N/A" ++ "\n- Activity minutes: "
    ++ getStrOr wearable_data "active_minutes" "N/A"
    ++ " minutes\n\nPREFERENCES:\n- Focus areas: "
    ++ String.intercalate ", " focus_areas ++ "\n- Time available: "
    ++ toString time_available ++ " minutes\n- Environment: " ++ environment
    ++ "\n\nPlease provide 3-5 specific coping strategies that are:\n1. Evidence-based and effective\n2. Tailored to the mood, stress, and physical data\n3. Appropriate for the specified time frame and environment\n4. Focused on the requested areas\n5. Clear and actionable\n"

def copingSystemPrompt : String :=
  "You are a compassionate mental health expert specializing in personalized coping strategies. Based on the data provided, suggest practical, evidence-based coping strategies. Be warm, supportive, and focus on achievable actions. Format your response with markdown headers, bullet points, and concise explanations."

/-- The single chat-completion request `generate_coping_strategies` builds
(no response-format hint; a max-tokens budget instead). -/
def generate_coping_strategies_request (prompt : String) : ChatRequest :=
  { model := "gpt-4o"
    messages :=
      [{ role := "system", content := copingSystemPrompt },
       { role := "user", content := prompt }]
    max_tokens := some 800 }

/-- The five generic strategies of `generate_fallback_strategies`. -/
def fallbackStrategyList : List String :=
  ["### Deep Breathing Exercise\n- Take 5 minutes to practice deep, diaphragmatic breathing\n- Inhale for 4 counts, hold for 2, exhale for 6\n- Focus on the sensation of your breath",
   "### Mindful Observation\n- Choose an object in your environment and observe it closely for 3 minutes\n- Notice its colors, textures, and details\n- This practice helps anchor you to the present moment",
   "### Brief Physical Movement\n- Stand up and stretch your body gently\n- Roll your shoulders, neck, and wrists\n- Even brief movement can help reduce tension and improve mood",
   "### Gratitude Practice\n- Take a moment to identify three things you're grateful for today\n- They can be simple everyday things\n- This helps shift perspective toward positive aspects of life",
   "### Progressive Muscle Relaxation\n- Tense and then release each muscle group in your body\n- Work from toes to head\n- Notice the difference between tension and relaxation"]

/-- Bool prefix test on character lists. -/
def listPrefixBool : List Char → List Char → Bool
  | [], _ => true
  | _ :: _, [] => false
  | a :: t, b :: s => a = b && listPrefixBool t s

/-- Bool contiguous-sublist test on character lists. -/
def listContainsSub (pat : List Char) : List Char → Bool
  | [] => listPrefixBool pat []
  | c :: rest => listPrefixBool pat (c :: rest) || listContainsSub pat rest

/-- Python `t in s` on strings. -/
def containsSubstring (s t : String) : Bool := listContainsSub t.data s.data

/-- Python `str.lower()` (ASCII case folding over the characters). -/
def pyLower (s : String) : String := ⟨s.data.map Char.toLower⟩

/-- One step of the focus-area loop of `generate_fallback_strategies`:
threads `(response, added_strategies)` through the `elif` chain.  The list
indexings `strategies[0]` … `strategies[4]` of the source can raise
`IndexError` (they do for index 4 on the filtered list), so the accumulator
is an `Option`: `none` is a raised exception, which aborts the loop and
propagates. -/
def fallbackStep (strategies : List String) (acc : Option (String × ℕ))
    (area : String) : Option (String × ℕ) :=
  match acc with
  | Option.none => Option.none
  | some (response, added) =>
    if ["breathing", "relaxation"].contains (pyLower area) ∧ added < 3 then
      (strategies[0]?).map fun s => (response ++ "\n" ++ s ++ "\n", added + 1)
    else if ["mindfulness", "present"].contains (pyLower area) ∧ added < 3 then
      (strategies[1]?).map fun s => (response ++ "\n" ++ s ++ "\n", added + 1)
    else if ["physical", "movement", "exercise"].contains (pyLower area) ∧ added < 3 then
      (strategies[2]?).map fun s => (response ++ "\n" ++ s ++ "\n", added + 1)
    else if ["gratitude", "positive", "perspective"].contains (pyLower area) ∧ added < 3 then
      (strategies[3]?).map fun s => (response ++ "\n" ++ s ++ "\n", added + 1)
    else if ["muscle", "tension", "relaxation"].contains (pyLower area) ∧ added < 3 then
      (strategies[4]?).map fun s => (response ++ "\n" ++ s ++ "\n", added + 1)
    else some (response, added)

/-- The `strategies` list after the time filter (dropping entries containing
"5 minutes" when little time is available leaves 4 of the 5 entries). -/
def filteredStrategies (time_available : ℤ) : List String :=
  if time_available < 5 then
    fallbackStrategyList.filter fun s => !containsSubstring s "5 minutes"
  else fallbackStrategyList

/-- The header the fallback response starts from. -/
def fallbackHeader (time_available : ℤ) (environment : String) : String :=
  "# Coping Strategies\n\n**Note:** These are general evidence-based strategies that can be helpful for many people. They're designed to be used in a "
    ++ environment ++ " environment and take " ++ toString time_available
    ++ " minutes or less.\n\n"

/-- `generate_fallback_strategies` from `openai_integration.py`: the generic
strategies used when the API is unavailable.  `none` models an `IndexError`
escaping the focus-area loop (`strategies[4]` on the filtered 4-element list
when `time_available < 5`); the final top-up loop only indexes below
`len(strategies)` and cannot raise. -/
def generate_fallback_strategies (focus_areas : List String)
    (time_available : ℤ) (environment : String) : Option String :=
  match focus_areas.foldl (fallbackStep (filteredStrategies time_available))
      (some (fallbackHeader time_available environment, 0)) with
  | Option.none => Option.none
  | some (response, added) =>
    if added < 2 then
      some (response ++ String.join
        (((filteredStrategies time_available).take
            (min (2 - added) (filteredStrategies time_available).length)).map
          fun s => "\n" ++ s ++ "\n"))
    else some response

/-- `generate_coping_strategies` from `openai_integration.py`.  `none` models
an exception escaping the function: the `except` guard catches the API
failure, but an `IndexError` raised by the fallback generator inside the
handler propagates. -/
def generate_coping_strategies (call : ChatRequest → Except String String)
    (journal_data wearable_data : PyDict) (focus_areas : List String)
    (time_available : ℤ) (environment : String) : Option String :=
  match call (generate_coping_strategies_request
      (create_strategy_prompt journal_data wearable_data focus_areas
        time_available environment)) with
  | .ok content => some content
  | .error _ =>
    generate_fallback_strategies focus_areas time_available environment

def sleepSystemPrompt : String :=
  "You are a sleep scientist specializing in the relationship between sleep and mental health. Analyze sleep data and provide evidence-based insights and recommendations."

/-- The single chat-completion request `analyze_sleep_patterns` builds. -/
def analyze_sleep_patterns_request (prompt : String) : ChatRequest :=
  { model := "gpt-4o"
    messages :=
      [{ role := "system", content := sleepSystemPrompt },
       { role := "user", content := prompt }]
    response_format := some "json_object" }

/-- Python `l[-7:]`. -/
def lastSeven {α : Type} (l : List α) : List α := l.drop (l.length - 7)

/-- The trimmed sleep entries serialized into the sleep prompt. -/
def sleep_prompt_entries (sleep_data : List PyDict) : List PyDict :=
  (lastSeven sleep_data).map fun entry =>
    [("date", (dget entry "date").getD (.str "")),
     ("sleep_hours", (dget entry "sleep_hours").getD (.num 0)),
     ("sleep_quality", (dget entry "sleep_quality").getD (.num 0)),
     ("deep_sleep_percentage", (dget entry "deep_sleep_percentage").getD (.num 0))]

/-- The trimmed journal entries serialized into the sleep prompt, with the
content summary truncated to 100 characters. -/
def journal_prompt_entries (journal_data : List PyDict) : List PyDict :=
  (lastSeven journal_data).map fun entry =>
    let content := match dget entry "content" with
      | some (.str s) => s
      | _ => ""
    [("date", (dget entry "date").getD (.str "")),
     ("mood_score", (dget entry "mood_score").getD (.num 0)),
     ("stress_level", (dget entry "stress_level").getD (.num 0)),
     ("content_summary",
       .str (if 100 < content.length then content.take 100 ++ "..." else content))]

/-- The fixed part of the sleep-analysis fallback record. -/
def sleepFallback : SleepAnalysis :=
  { overall_assessment := "Unable to analyze due to API error"
    sleep_mood_correlation := "Data unavailable"
    key_issues := ["API connection error"]
    recommendations := ["Try again later", "Focus on consistent sleep schedule"]
    positive_habits := ["Continuing to track sleep data"] }

/-- `analyze_sleep_patterns` from `openai_integration.py`.  `dumps` abstracts
`json.dumps(..., indent=2)`. -/
def analyze_sleep_patterns (call : ChatRequest → Except String SleepAnalysis)
    (dumps : List PyDict → String) (sleep_data journal_data : List PyDict) :
    SleepAnalysis :=
  let prompt :=
    "Analyze the following sleep data and journal entries:\n\nSLEEP DATA:\n"
      ++ dumps (sleep_prompt_entries sleep_data) ++ "\n\nJOURNAL DATA:\n"
      ++ dumps (journal_prompt_entries journal_data)
      ++ "\n\nProvide a sleep pattern analysis that includes:\n1. Overall sleep quality assessment\n2. Correlation between sleep and mood/stress\n3. Most significant sleep issues\n4. Actionable recommendations for improvement\n5. Positive sleep habits to maintain\n\nFormat as JSON with these keys: 'overall_assessment', 'sleep_mood_correlation', 'key_issues', 'recommendations', 'positive_habits'\n"
  match call (analyze_sleep_patterns_request prompt) with
  | .ok r => r
  | .error e => { sleepFallback with error := some e }

/-- `generate_coping_strategies` from `openai_helper.py`: short-circuits to
the generic fallback when no API key is configured, otherwise delegates to
the integration module.  The helper's outer catch-all catches an exception
escaping the body (the fallback generator's `IndexError`), prints, and calls
the same fallback generator again inside its handler — which raises again on
the same arguments and propagates uncaught (`none`). -/
def helper_generate_coping_strategies (OPENAI_API_KEY : String)
    (call : ChatRequest → Except String String)
    (journal_data wearable_data : PyDict) (focus_areas : List String)
    (time_available : ℤ) (environment : String) : Option String :=
  match (if OPENAI_API_KEY = "" then
          generate_fallback_strategies focus_areas time_available environment
        else
          generate_coping_strategies call journal_data wearable_data
            focus_areas time_available environment) with
  | some s => some s
  | Option.none =>
    generate_fallback_strategies focus_areas time_available environment

/-- C7: every chat-completion request built by `analyze_journal_sentiment`,
`generate_coping_strategies` and `analyze_sleep_patterns` consists of exactly
one system message followed by exactly one user message; the sentiment and
sleep requests carry the JSON-object response-format hint, the coping request
carries none. -/
theorem claim7_request_shape (journal_text prompt₁ prompt₂ : String) :
    (analyze_journal_sentiment_request journal_text).messages.map ChatMessage.role
        = ["system", "user"]
      ∧ (analyze_journal_sentiment_request journal_text).response_format
          = some "json_object"
      ∧ (generate_coping_strategies_request prompt₁).messages.map ChatMessage.role
          = ["system", "user"]
      ∧ (generate_coping_strategies_request prompt₁).response_format
          = Option.none
      ∧ (analyze_sleep_patterns_request prompt₂).messages.map ChatMessage.role
          = ["system", "user"]
      ∧ (analyze_sleep_patterns_request prompt₂).response_format
          = some "json_object" :=
  ⟨rfl, rfl, rfl, rfl, rfl, rfl⟩

/-- C4 (counterexample): the fallback of `analyze_journal_sentiment` is not a
fixed constant independent of the raised exception: two different exceptions
produce two different fallback dictionaries (the exception message is stored
in the `error` field), so the claim as stated is false.  (The same functions
also print nothing on failure.) -/
theorem claim4_counterexample :
    analyze_journal_sentiment (fun _ => .error "boom") "today was fine"
      ≠ analyze_journal_sentiment (fun _ => .error "network down") "today was fine" := by
  decide

theorem fallbackStep_full_isSome (acc : Option (String × ℕ)) (area : String)
    (h : acc.isSome) : (fallbackStep fallbackStrategyList acc area).isSome := by
  cases acc with
  | none => simp at h
  | some p =>
    obtain ⟨response, added⟩ := p
    unfold fallbackStep
    dsimp only
    split_ifs <;> rfl

theorem foldl_fallback_isSome (l : List String) (acc : Option (String × ℕ))
    (h : acc.isSome) :
    (l.foldl (fallbackStep fallbackStrategyList) acc).isSome := by
  induction l generalizing acc with
  | nil => exact h
  | cons a t ih => exact ih _ (fallbackStep_full_isSome acc a h)

theorem fallbackStep_muscle (strategies : List String) (response : String)
    (n : ℕ) (h4 : strategies[4]? = Option.none) (hn : n < 3) :
    fallbackStep strategies (some (response, n)) "muscle" = Option.none := by
  have e1 : ¬ (["breathing", "relaxation"].contains (pyLower "muscle") = true
      ∧ n < 3) := fun hc => absurd hc.1 (by decide)
  have e2 : ¬ (["mindfulness", "present"].contains (pyLower "muscle") = true
      ∧ n < 3) := fun hc => absurd hc.1 (by decide)
  have e3 : ¬ (["physical", "movement", "exercise"].contains (pyLower "muscle")
      = true ∧ n < 3) := fun hc => absurd hc.1 (by decide)
  have e4 : ¬ (["gratitude", "positive", "perspective"].contains
      (pyLower "muscle") = true ∧ n < 3) := fun hc => absurd hc.1 (by decide)
  have e5 : ["muscle", "tension", "relaxation"].contains (pyLower "muscle")
      = true ∧ n < 3 := ⟨by decide, hn⟩
  unfold fallbackStep
  dsimp only
  rw [if_neg e1, if_neg e2, if_neg e3, if_neg e4, if_pos e5, h4]
  rfl

/-- C4 (amended): every external LLM call is wrapped in a catch-all guard,
and the failure outcome depends on the function.  `analyze_journal_sentiment`
and `analyze_sleep_patterns` return a fixed fallback record except for an
`error` field that carries the exception message (so their fallbacks are not
exception-independent constants), and log nothing.  `generate_coping_strategies`
(integration and helper module alike) hands the failure to the generic
fallback generator, whose outcome is independent of the exception; that
generator always produces its fixed strategy text when at least 5 minutes
are available, but with less time the filtered strategy list has only four
entries and a muscle/tension focus area makes `strategies[4]` raise
`IndexError`, which propagates out of both functions instead of a fallback
being returned. -/
theorem claim4_fallbacks (e : String) (journal_text : String)
    (journal_data wearable_data : PyDict) (focus_areas : List String)
    (time_available : ℤ) (environment : String) (key : String)
    (dumps : List PyDict → String) (sleep_data journal_list : List PyDict) :
    analyze_journal_sentiment (fun _ => .error e) journal_text
        = { sentimentFallback with error := some e }
      ∧ analyze_sleep_patterns (fun _ => .error e) dumps sleep_data journal_list
          = { sleepFallback with error := some e }
      ∧ generate_coping_strategies (fun _ => .error e) journal_data
          wearable_data focus_areas time_available environment
          = generate_fallback_strategies focus_areas time_available environment
      ∧ helper_generate_coping_strategies key (fun _ => .error e) journal_data
          wearable_data focus_areas time_available environment
          = generate_fallback_strategies focus_areas time_available environment
      ∧ (5 ≤ time_available →
          (generate_fallback_strategies focus_areas time_available
            environment).isSome)
      ∧ generate_fallback_strategies ["muscle"] 3 environment
          = Option.none := by
  refine ⟨rfl, rfl, rfl, ?_, ?_, ?_⟩
  · have hinner : generate_coping_strategies (fun _ => Except.error e)
        journal_data wearable_data focus_areas time_available environment
        = generate_fallback_strategies focus_areas time_available environment :=
      rfl
    unfold helper_generate_coping_strategies
    rw [hinner, ite_self]
    cases hF : generate_fallback_strategies focus_areas time_available
        environment <;> rfl
  · intro hta
    unfold generate_fallback_strategies
    have hfs : filteredStrategies time_available = fallbackStrategyList := by
      unfold filteredStrategies
      rw [if_neg (not_lt.mpr hta)]
    rw [hfs]
    have hfold := foldl_fallback_isSome focus_areas
      (some (fallbackHeader time_available environment, 0)) rfl
    cases hF : List.foldl (fallbackStep fallbackStrategyList)
        (some (fallbackHeader time_available environment, 0)) focus_areas with
    | none => rw [hF] at hfold; simp at hfold
    | some p =>
      obtain ⟨response, added⟩ := p
      dsimp only
      split_ifs <;> rfl
  · unfold generate_fallback_strategies
    have h4 : (filteredStrategies 3)[4]? = (Option.none : Option String) := by
      decide
    have hstep := fallbackStep_muscle (filteredStrategies 3)
      (fallbackHeader 3 environment) 0 h4 (by norm_num)
    simp only [List.foldl_cons, List.foldl_nil, hstep]

theorem claim4_witness :
    (generate_fallback_strategies ["breathing"] 10 "home").isSome
      ∧ generate_fallback_strategies ["muscle"] 3 "home" = Option.none := by
  constructor
  · exact (claim4_fallbacks "err" "" [] [] ["breathing"] 10 "home" ""
      (fun _ => "") [] []).2.2.2.2.1 (by norm_num)
  · exact (claim4_fallbacks "err" "" [] [] ["muscle"] 3 "home" ""
      (fun _ => "") [] []).2.2.2.2.2

end NeuralSync
